import Mathlib

/-!
Verification of the tempest-today weather application's unit-conversion and
data-normalization core (src/core/utils.py, src/core/views.py), via a shallow
embedding into Lean.  Python numbers are modelled as exact rationals (ℚ),
Python `None` as `Option.none`, and Python's banker's rounding (`round`) as
`pyRound` below.
-/

namespace Tempest

/-- Python's built-in `round` on a real (here rational) number: round half to
even.  `round(x)` returns the floor when the fractional part is below 1/2, the
ceiling when above, and the even neighbour on an exact tie. -/
def pyRound (q : ℚ) : ℤ :=
  let f := q.floor
  let r := q - (f : ℚ)
  if r < 1/2 then f
  else if 1/2 < r then f + 1
  else if f % 2 = 0 then f else f + 1

/-- Python's `round(x, 2)`: round to two decimal places (half to even),
returning a rational with denominator dividing 100. -/
def pyRound2 (q : ℚ) : ℚ := (pyRound (q * 100) : ℚ) / 100

/-- Python's `int(x)` on a number: truncation toward zero (the floor for
nonnegative arguments, the ceiling `-⌊-q⌋` for negative ones). -/
def pyTrunc (q : ℚ) : ℤ := if 0 ≤ q then q.floor else -((-q).floor)

/-- Python substring test `pat in s`. -/
def strContains (s pat : String) : Bool := decide (pat.data <:+: s.data)

/-- A Python temperature value as it flows through the conversion helpers:
`None`, the string sentinel `"N/A"`, or a number.  (Numeric strings, which
`convert_temperature` would also accept, never occur at its call sites and are
not modelled.) -/
inductive TempVal where
  | null
  | na
  | num (q : ℚ)
deriving DecidableEq, Repr

/-- Source `celsius_to_fahrenheit` (utils.py:16): `None → "N/A"`, else
`round(temp_c * 9 / 5 + 32)`. -/
def celsius_to_fahrenheit : Option ℚ → TempVal
  | none => .na
  | some c => .num (pyRound (c * 9 / 5 + 32))

/-- Source `fahrenheit_to_celsius` (utils.py:23): `None` or `"N/A"` → `"N/A"`, else
`round((temp_f - 32) * 5 / 9)`. -/
def fahrenheit_to_celsius : TempVal → TempVal
  | .null => .na
  | .na => .na
  | .num f => .num (pyRound ((f - 32) * 5 / 9))

/-- Source `convert_temperature` (utils.py:30): absent passthrough, identity when the
units agree, otherwise the F→C or C→F formula rounded to an integer. -/
def convert_temperature (temp : TempVal) (from_unit to_unit : String) : TempVal :=
  if temp = .na ∨ temp = .null then .na
  else if from_unit = to_unit then temp
  else
    match temp with
    | .num t =>
        if from_unit = "F" ∧ to_unit = "C" then .num (pyRound ((t - 32) * 5 / 9))
        else if from_unit = "C" ∧ to_unit = "F" then .num (pyRound (t * 9 / 5 + 32))
        else .num t
    | _ => .na

/-- First component of `convert_wind_speed`'s result: the empty-string absent
marker or an integer speed in mph. -/
inductive WindVal where
  | absent
  | mph (n : ℤ)
deriving DecidableEq, Repr

/-- Source `convert_wind_speed` (utils.py:65): `None → ("", "no wind data
available")`; a unit code containing `"m_s"` → `round(raw * 2.23694)` mph;
else a code containing `"km_h"` → `round(raw * 0.621371)` mph; any other code
→ `("", "no wind data available")`. -/
def convert_wind_speed (raw_value : Option ℚ) (unit_code : String) : WindVal × String :=
  match raw_value with
  | none => (.absent, "no wind data available")
  | some v =>
      if strContains unit_code "m_s" then (.mph (pyRound (v * 2.23694)), "mph")
      else if strContains unit_code "km_h" then (.mph (pyRound (v * 0.621371)), "mph")
      else (.absent, "no wind data available")

/-- The 16 compass labels of `degrees_to_cardinal` (utils.py:93). -/
def directions : List String :=
  ["N", "NNE", "NE", "ENE", "E", "ESE", "SE", "SSE",
   "S", "SSW", "SW", "WSW", "W", "WNW", "NW", "NNW"]

/-- Source `degrees_to_cardinal` (utils.py:88): `None → ""`, else
`directions[int((degrees + 11.25) / 22.5) % 16]`.  Lean's `%` on ℤ, like
Python's, yields a result in `[0, 16)` here. -/
def degrees_to_cardinal : Option ℚ → String
  | none => ""
  | some degrees => (directions.getD ((pyTrunc ((degrees + 11.25) / 22.5)) % 16).toNat "")

/-- Source `get_moon_details` (utils.py:101): map the 0–28 moon-phase number to a
(name, symbol) pair by ascending strict upper bounds, with a final catch-all
branch.  The symbol strings reproduce the source file's literal (mojibake)
characters. -/
def get_moon_details (moon_phase : ℚ) : String × String :=
  if moon_phase < 1.84 then ("New Moon", "ðŸŒ‘")
  else if moon_phase < 5.53 then ("Waxing Crescent", "ðŸŒ’")
  else if moon_phase < 9.22 then ("First Quarter", "ðŸŒ“")
  else if moon_phase < 12.91 then ("Waxing Gibbous", "ðŸŒ”")
  else if moon_phase < 16.61 then ("Full Moon", "ðŸŒ•")
  else if moon_phase < 20.30 then ("Waning Gibbous", "ðŸŒ–")
  else if moon_phase < 23.99 then ("Last Quarter", "ðŸŒ—")
  else ("Waning Crescent", "ðŸŒ˜")

/-- Formatting of a day offset in the next-moon search (utils.py:235-238,
243-246): offset 1 → `"tomorrow"`, otherwise `"in N days"`. -/
def fmt_days (i : Nat) : String :=
  if i = 1 then "tomorrow" else "in " ++ toString i ++ " days"

/-- The day-by-day loop of the next-full/new-moon search (utils.py:228-250),
parametrized by the external `astral_phase` function (`phase i` is the phase
index `i` days from today).  `full`/`new` accumulate the first match found
(`""` = not yet found, mirroring Python string truthiness); the loop breaks
early once both are found and otherwise runs `i = 1, …, 39`.  `fuel` counts
the offsets still to be visited, so the loop `for i in range(1, 40)` is
`moonGo phase 39 1 "" ""`. -/
def moonGo (phase : Nat → ℚ) : Nat → Nat → String → String → String × String
  | 0, _, full, new => (full, new)
  | fuel + 1, i, full, new =>
      let p := phase i
      let full' := if full = "" ∧ |p - 14| < 1.0 then fmt_days i else full
      let new' := if new = "" ∧ (p < 1.0 ∨ 27.0 < p) then fmt_days i else new
      if full' ≠ "" ∧ new' ≠ "" then (full', new')
      else moonGo phase fuel (i + 1) full' new'

/-- The next-full-moon / next-new-moon part of `get_astronomy_data`
(utils.py:222-256): run the scan over offsets 1, …, 39 with both accumulators
empty, then replace a still-empty result by the fallback `"N/A"`. -/
def next_moon_search (phase : Nat → ℚ) : String × String :=
  let r := moonGo phase 39 1 "" ""
  (if r.1 = "" then "N/A" else r.1, if r.2 = "" then "N/A" else r.2)

/-- A raw numeric observation value as read from the upstream JSON: `None`, a
number, or a non-numeric value (whose comparison with `0` raises `TypeError`
in Python). -/
inductive RawVal where
  | null
  | num (q : ℚ)
  | nonNumeric
deriving DecidableEq, Repr

/-- The fields of the raw current-observation record that
`get_current_weather` (views.py:256) reads. -/
structure Obs where
  temperature : Option ℚ := none
  textDescription : Option String := none
  windSpeed_value : Option ℚ := none
  windSpeed_unitCode : String := ""
  windDirection : Option ℚ := none
  relativeHumidity : Option ℚ := none
  heatIndex : Option ℚ := none
  windChill : Option ℚ := none
  maxTemperatureLast24Hours : Option ℚ := none
  minTemperatureLast24Hours : Option ℚ := none
  precipitationLastHour : RawVal := .null
deriving DecidableEq, Repr

/-- The normalized current-conditions record built at views.py:398-414 (and,
for the missing-station case, views.py:280-295). -/
structure CurrentWeather where
  temp : Option ℚ
  description : Option String
  station : Option String
  station_full_name : Option String
  wind_speed_mph : Option ℤ
  wind_label : Option String
  current_wind_direction : Option String
  humidity : Option ℤ
  heat_index : Option ℤ
  wind_chill : Option ℤ
  max_temp_24h : Option ℤ
  min_temp_24h : Option ℤ
  precip_1h : Option ℚ
  precip_1h_mm : Option ℚ
deriving DecidableEq, Repr

/-- Python truthiness of an optional string: `None` and `""` are falsy. -/
def truthyStr : Option String → Bool
  | none => false
  | some s => s ≠ ""

/-- views.py:274-277: format the station name with the state when both are
truthy, else keep the bare station name. -/
def station_display (station_name state_abbrev : Option String) : Option String :=
  if truthyStr station_name ∧ truthyStr state_abbrev then
    some (station_name.getD "" ++ ", " ++ state_abbrev.getD "")
  else station_name

/-- views.py:300-312: the current temperature display value.  NWS reports
Celsius; convert to Fahrenheit first, then to Celsius when requested, turning
any `"N/A"` into `None`. -/
def temp_display (temp_c : Option ℚ) (unit : String) : Option ℚ :=
  match celsius_to_fahrenheit temp_c with
  | .na => none
  | tf =>
      if unit = "C" then
        match convert_temperature tf "F" "C" with
        | .num q => some q
        | _ => none
      else
        match tf with
        | .num q => some q
        | _ => none

/-- views.py:346-360 (and the textually identical 24-hour extrema blocks at
views.py:369-383): a Celsius reading is converted to Fahrenheit; if that is
not `"N/A"` the displayed value is the rounded Fahrenheit value when the
target unit is `F` and the rounded original Celsius value otherwise; an
absent reading stays absent. -/
def feels_like_display (reading_c : Option ℚ) (unit : String) : Option ℤ :=
  match reading_c with
  | none => none
  | some c =>
      match celsius_to_fahrenheit (some c) with
      | .num f => some (if unit = "F" then pyRound f else pyRound c)
      | _ => none

/-- views.py:385-395: precipitation normalization, yielding the
(inches, millimeters) pair.  A non-numeric value makes the `> 0` comparison
raise `TypeError`, caught at views.py:393-395 which sets both fields to
`None`. -/
def precip_fields : RawVal → Option ℚ × Option ℚ
  | .null => (none, none)
  | .num mm => (some (if 0 < mm then pyRound2 (mm / 25.4) else 0), some mm)
  | .nonNumeric => (none, none)

/-- Source `get_current_weather` (views.py:256-414), with the effectful collaborators
factored out: the station lookup result (`station_id`, `station_name`) and the
geocoded `state_abbrev` are passed in, as is the observation record `obs` that
`get_current_observations` would return for the station. -/
def get_current_weather (station_id station_name state_abbrev : Option String)
    (unit : String) (obs : Obs) : CurrentWeather :=
  let station_display_v := station_display station_name state_abbrev
  if truthyStr station_id = false then
    { temp := none, description := none, station := none,
      station_full_name := station_display_v,
      wind_speed_mph := none, wind_label := none, current_wind_direction := none,
      humidity := none, heat_index := none, wind_chill := none,
      max_temp_24h := none, min_temp_24h := none,
      precip_1h := none, precip_1h_mm := none }
  else
    let description := match obs.textDescription with
      | none => none
      | some s => if s = "" ∨ s = "Unknown" then none else some s
    let ws := convert_wind_speed obs.windSpeed_value obs.windSpeed_unitCode
    let wind_direction := degrees_to_cardinal obs.windDirection
    let precip := precip_fields obs.precipitationLastHour
    { temp := temp_display obs.temperature unit,
      description := description,
      station := station_id,
      station_full_name := station_display_v,
      wind_speed_mph :=
        match ws.1 with
        | .absent => none
        | .mph n => if n = 0 then none else some n,
      wind_label :=
        if ws.2 ≠ "" ∧ ws.2 ≠ "no wind data available" then some ws.2 else none,
      current_wind_direction :=
        if wind_direction ≠ "" then some wind_direction else none,
      humidity := obs.relativeHumidity.map pyRound,
      heat_index := feels_like_display obs.heatIndex unit,
      wind_chill := feels_like_display obs.windChill unit,
      max_temp_24h := feels_like_display obs.maxTemperatureLast24Hours unit,
      min_temp_24h := feels_like_display obs.minTemperatureLast24Hours unit,
      precip_1h := precip.1,
      precip_1h_mm := precip.2 }

/-- views.py:113-129: on a cache hit with requested unit `C`, every cached
temperature is put through `convert_temperature(·, 'F', 'C')` before display. -/
def cache_hit_temperature (t : TempVal) (unit : String) : TempVal :=
  if unit = "C" then convert_temperature t "F" "C" else t

/-- views.py:182-189 together with views.py:230-238: the forecast temperatures
stored into the cache.  When the requested unit was `C` they were already
converted in place (lines 182-189) before `cache.set` ran (line 238), despite
the comment "Store in Fahrenheit" at line 231. -/
def cache_store_temperature (t : TempVal) (unit : String) : TempVal :=
  if unit = "C" then convert_temperature t "F" "C" else t

/-- An observation record with every field missing, used as the base point for
concrete instantiations. -/
def obsBase : Obs := {}

lemma ratFloor_eq (q : ℚ) : q.floor = ⌊q⌋ := by
  rw [Rat.floor_def', Rat.floor_def]

lemma pyRound_def (q : ℚ) : pyRound q =
    if q - (⌊q⌋ : ℚ) < 1/2 then ⌊q⌋
    else if 1/2 < q - (⌊q⌋ : ℚ) then ⌊q⌋ + 1
    else if ⌊q⌋ % 2 = 0 then ⌊q⌋ else ⌊q⌋ + 1 := by
  simp only [pyRound, ratFloor_eq]

/-- Lemma: `pyRound` is a nearest-integer rounding: it never moves a value by more
than 1/2. -/
lemma pyRound_abs_sub_le (q : ℚ) : |(pyRound q : ℚ) - q| ≤ 1/2 := by
  have h1 : (⌊q⌋ : ℚ) ≤ q := Int.floor_le q
  have h2 : q < ⌊q⌋ + 1 := Int.lt_floor_add_one q
  rw [pyRound_def]
  split_ifs with ha hb hc
  all_goals rw [abs_le]; constructor <;> (push_cast; linarith)

/-- Any value strictly within 1/2 of an integer rounds to that integer. -/
lemma pyRound_eq_of_abs_lt {q : ℚ} {n : ℤ} (h : |q - (n : ℚ)| < 1/2) :
    pyRound q = n := by
  rw [abs_lt] at h
  obtain ⟨h1, h2⟩ := h
  rw [pyRound_def]
  by_cases hq : (n : ℚ) ≤ q
  · have hf : ⌊q⌋ = n := by
      rw [Int.floor_eq_iff]
      refine ⟨hq, by linarith⟩
    rw [hf, if_pos (by linarith)]
  · push_neg at hq
    have hf : ⌊q⌋ = n - 1 := by
      rw [Int.floor_eq_iff]
      push_cast
      constructor <;> linarith
    rw [hf, if_neg (by push_cast; linarith), if_pos (by push_cast; linarith)]
    omega

lemma pyRound_intCast (n : ℤ) : pyRound (n : ℚ) = n :=
  pyRound_eq_of_abs_lt (by norm_num)

/-- Converting an integer Celsius value to Fahrenheit (rounded) and back to
Celsius (rounded) recovers it exactly: the Fahrenheit rounding error is at
most 1/2 degree F, which shrinks to at most 5/18 < 1/2 degree C. -/
lemma fahrenheit_roundtrip (c : ℤ) :
    pyRound ((((pyRound ((c : ℚ) * 9 / 5 + 32) : ℤ) : ℚ) - 32) * 5 / 9) = c := by
  set x : ℚ := (c : ℚ) * 9 / 5 + 32 with hx
  have hb := pyRound_abs_sub_le x
  apply pyRound_eq_of_abs_lt
  have heq : ((pyRound x : ℚ) - 32) * 5 / 9 - (c : ℚ) = ((pyRound x : ℚ) - x) * (5 / 9) := by
    rw [hx]; ring
  rw [heq, abs_mul]
  have h5 : |(5 : ℚ) / 9| = 5 / 9 := by norm_num
  rw [h5]
  have h3 : |(pyRound x : ℚ) - x| * (5 / 9) ≤ (1 / 2) * (5 / 9) :=
    mul_le_mul_of_nonneg_right hb (by norm_num)
  linarith

lemma fmt_days_ne_empty (i : Nat) : fmt_days i ≠ "" := by
  unfold fmt_days
  split
  · decide
  · intro h
    have h2 := congrArg String.length h
    simp [String.length_append] at h2
    exact (by decide : ¬("in ".length = 0)) h2.1.1

lemma moonGo_succ (phase : Nat → ℚ) (fuel i : Nat) (full new : String) :
    moonGo phase (fuel + 1) i full new =
      if (if full = "" ∧ |phase i - 14| < 1.0 then fmt_days i else full) ≠ "" ∧
         (if new = "" ∧ (phase i < 1.0 ∨ 27.0 < phase i) then fmt_days i else new) ≠ "" then
        ((if full = "" ∧ |phase i - 14| < 1.0 then fmt_days i else full),
         (if new = "" ∧ (phase i < 1.0 ∨ 27.0 < phase i) then fmt_days i else new))
      else
        moonGo phase fuel (i + 1)
          (if full = "" ∧ |phase i - 14| < 1.0 then fmt_days i else full)
          (if new = "" ∧ (phase i < 1.0 ∨ 27.0 < phase i) then fmt_days i else new) := rfl

/-- The full-moon component of the scan returns the already-found string if
any, else the formatted first matching offset among the `fuel` offsets
starting at `i`, else `""`. -/
lemma moonGo_fst (phase : Nat → ℚ) (fuel : Nat) :
    ∀ (i : Nat) (full new : String),
      (moonGo phase fuel i full new).1 =
        if full = "" then
          (match (List.range' i fuel).find? (fun j => decide (|phase j - 14| < 1.0)) with
           | some j => fmt_days j
           | none => "")
        else full := by
  induction fuel with
  | zero =>
      intro i full new
      by_cases h : full = ""
      · rw [if_pos h]; exact h
      · rw [if_neg h]; rfl
  | succ fuel ih =>
      intro i full new
      rw [moonGo_succ]
      set F := (if full = "" ∧ |phase i - 14| < 1.0 then fmt_days i else full) with hF
      set N := (if new = "" ∧ (phase i < 1.0 ∨ 27.0 < phase i) then fmt_days i else new) with hN
      have hcollapse :
          (if F ≠ "" ∧ N ≠ "" then (F, N) else moonGo phase fuel (i + 1) F N).1 =
            if F = "" then
              (match (List.range' (i + 1) fuel).find? (fun j => decide (|phase j - 14| < 1.0)) with
               | some j => fmt_days j
               | none => "")
            else F := by
        by_cases hc : F ≠ "" ∧ N ≠ ""
        · rw [if_pos hc, if_neg hc.1]
        · rw [if_neg hc]
          exact ih (i + 1) F N
      rw [hcollapse, List.range'_succ]
      by_cases hfull : full = ""
      · subst hfull
        by_cases hm : |phase i - 14| < 1.0
        · have hFv : F = fmt_days i := by rw [hF, if_pos ⟨rfl, hm⟩]
          rw [List.find?_cons_of_pos _ (by simpa using hm)]
          rw [hFv, if_neg (fmt_days_ne_empty i), if_pos rfl]
        · have hFv : F = "" := by rw [hF, if_neg (by simp [hm])]
          rw [List.find?_cons_of_neg _ (by simpa using hm)]
          rw [hFv, if_pos rfl]
      · have hFv : F = full := by rw [hF, if_neg (by simp [hfull])]
        rw [hFv, if_neg hfull, if_neg hfull]

/-- The new-moon component, symmetrically. -/
lemma moonGo_snd (phase : Nat → ℚ) (fuel : Nat) :
    ∀ (i : Nat) (full new : String),
      (moonGo phase fuel i full new).2 =
        if new = "" then
          (match (List.range' i fuel).find? (fun j => decide (phase j < 1.0 ∨ 27.0 < phase j)) with
           | some j => fmt_days j
           | none => "")
        else new := by
  induction fuel with
  | zero =>
      intro i full new
      by_cases h : new = ""
      · rw [if_pos h]; exact h
      · rw [if_neg h]; rfl
  | succ fuel ih =>
      intro i full new
      rw [moonGo_succ]
      set F := (if full = "" ∧ |phase i - 14| < 1.0 then fmt_days i else full) with hF
      set N := (if new = "" ∧ (phase i < 1.0 ∨ 27.0 < phase i) then fmt_days i else new) with hN
      have hcollapse :
          (if F ≠ "" ∧ N ≠ "" then (F, N) else moonGo phase fuel (i + 1) F N).2 =
            if N = "" then
              (match (List.range' (i + 1) fuel).find? (fun j => decide (phase j < 1.0 ∨ 27.0 < phase j)) with
               | some j => fmt_days j
               | none => "")
            else N := by
        by_cases hc : F ≠ "" ∧ N ≠ ""
        · rw [if_pos hc, if_neg hc.2]
        · rw [if_neg hc]
          exact ih (i + 1) F N
      rw [hcollapse, List.range'_succ]
      by_cases hnew : new = ""
      · subst hnew
        by_cases hm : phase i < 1.0 ∨ 27.0 < phase i
        · have hNv : N = fmt_days i := by rw [hN, if_pos ⟨rfl, hm⟩]
          rw [List.find?_cons_of_pos _ (by simpa using hm)]
          rw [hNv, if_neg (fmt_days_ne_empty i), if_pos rfl]
        · have hNv : N = "" := by rw [hN, if_neg (by simp [hm])]
          rw [List.find?_cons_of_neg _ (by simpa using hm)]
          rw [hNv, if_pos rfl]
      · have hNv : N = new := by rw [hN, if_neg (by simp [hnew])]
        rw [hNv, if_neg hnew, if_neg hnew]

/-- C10: `get_moon_details` is total on all (rational) inputs, returning some
(name, symbol) pair for every input — no branch raises; every input at least
23.99 (including out-of-range inputs of 28 or more, which fall through to the
final else) yields "Waning Crescent", and every negative input satisfies the
first bound and yields "New Moon". -/
theorem get_moon_details_total_spec :
    (∀ q : ℚ, ∃ p : String × String, get_moon_details q = p)
    ∧ (∀ q : ℚ, 23.99 ≤ q → (get_moon_details q).1 = "Waning Crescent")
    ∧ (∀ q : ℚ, q < 0 → (get_moon_details q).1 = "New Moon") := by
  refine ⟨fun q => ⟨_, rfl⟩, fun q hq => ?_, fun q hq => ?_⟩
  · unfold get_moon_details
    split_ifs with h1 h2 h3 h4 h5 h6 h7 <;> first | rfl | (exfalso; linarith)
  · unfold get_moon_details
    rw [if_pos (by linarith : q < (1.84 : ℚ))]

/-- Witness for C10, instantiated at the out-of-range input 30 and the
negative input -1. -/
theorem get_moon_details_total_spec_witness :
    (get_moon_details 30).1 = "Waning Crescent" ∧ (get_moon_details (-1)).1 = "New Moon" :=
  ⟨get_moon_details_total_spec.2.1 30 (by norm_num),
   get_moon_details_total_spec.2.2 (-1) (by norm_num)⟩

/-- C7: `degrees_to_cardinal` maps an absent input to the empty string, and
any degree value in [0, 360] to the compass label of `directions` at index
`⌊(degrees + 11.25) / 22.5⌋ % 16` (Python's `int` truncation coincides with
the floor on this nonnegative range); in particular 0, 360, 348.75 and 11.24
map to "N" and 11.26 maps to "NNE". -/
theorem degrees_to_cardinal_spec :
    degrees_to_cardinal none = ""
    ∧ (∀ q : ℚ, 0 ≤ q → q ≤ 360 →
        degrees_to_cardinal (some q) =
          directions.getD ((⌊(q + 11.25) / 22.5⌋ % 16).toNat) "")
    ∧ degrees_to_cardinal (some 0) = "N"
    ∧ degrees_to_cardinal (some 360) = "N"
    ∧ degrees_to_cardinal (some 348.75) = "N"
    ∧ degrees_to_cardinal (some 11.24) = "N"
    ∧ degrees_to_cardinal (some 11.26) = "NNE" := by
  refine ⟨rfl, fun q hq _ => ?_, ?_, ?_, ?_, ?_, ?_⟩
  · have hnn : (0 : ℚ) ≤ (q + 11.25) / 22.5 := by
      apply div_nonneg
      · linarith
      · norm_num
    simp only [degrees_to_cardinal, pyTrunc]
    rw [if_pos hnn, ratFloor_eq]
  all_goals with_unfolding_all decide

/-- Witness for C7, instantiated at 90 degrees (bucket 4, "E"). -/
theorem degrees_to_cardinal_spec_witness :
    degrees_to_cardinal (some 90) = "E" := by
  rw [degrees_to_cardinal_spec.2.1 90 (by norm_num) (by norm_num)]
  with_unfolding_all decide

/-- C6: `convert_wind_speed` returns the absent marker with label "no wind
data available" for an absent raw value under any unit code; a unit code
containing "m_s" yields `round(raw * 2.23694)` mph (so 10 m/s gives 22 mph);
a unit code containing "km_h" (and not "m_s", which the source checks first)
yields `round(raw * 0.621371)` mph; a code containing neither marker yields
the absent marker again — never a value converted under a guessed unit. -/
theorem convert_wind_speed_spec :
    (∀ code : String, convert_wind_speed none code = (.absent, "no wind data available"))
    ∧ (∀ (q : ℚ) (code : String), strContains code "m_s" = true →
        convert_wind_speed (some q) code = (.mph (pyRound (q * 2.23694)), "mph"))
    ∧ convert_wind_speed (some 10) "wmoUnit:m_s-1" = (.mph 22, "mph")
    ∧ (∀ (q : ℚ) (code : String), strContains code "m_s" = false →
        strContains code "km_h" = true →
        convert_wind_speed (some q) code = (.mph (pyRound (q * 0.621371)), "mph"))
    ∧ (∀ (q : ℚ) (code : String), strContains code "m_s" = false →
        strContains code "km_h" = false →
        convert_wind_speed (some q) code = (.absent, "no wind data available")) := by
  refine ⟨fun code => rfl, fun q code h => ?_, by with_unfolding_all decide,
    fun q code h1 h2 => ?_, fun q code h1 h2 => ?_⟩
  · simp [convert_wind_speed, h]
  · simp [convert_wind_speed, h1, h2]
  · simp [convert_wind_speed, h1, h2]

/-- Witness for C6, instantiated at 10 km/h (6 mph). -/
theorem convert_wind_speed_spec_witness :
    convert_wind_speed (some 10) "wmoUnit:km_h-1" = (.mph 6, "mph") := by
  rw [convert_wind_speed_spec.2.2.2.1 10 "wmoUnit:km_h-1" (by decide) (by decide)]
  with_unfolding_all decide

/-- C5: for every integer Celsius temperature c, the round trip
`fahrenheit_to_celsius(celsius_to_fahrenheit(c))` lands in {c-1, c, c+1} (in
fact it recovers c exactly), and re-applying the composition to its result
leaves it fixed. -/
theorem temperature_roundtrip_spec (c : ℤ) :
    ∃ r : ℤ, fahrenheit_to_celsius (celsius_to_fahrenheit (some (c : ℚ))) = .num (r : ℚ)
      ∧ (r = c - 1 ∨ r = c ∨ r = c + 1)
      ∧ fahrenheit_to_celsius (celsius_to_fahrenheit (some (r : ℚ))) = .num (r : ℚ) := by
  refine ⟨c, ?_, Or.inr (Or.inl rfl), ?_⟩ <;>
    simp only [celsius_to_fahrenheit, fahrenheit_to_celsius, fahrenheit_roundtrip c]

/-- C8: a non-absent Celsius heat-index or wind-chill reading is converted to
Fahrenheit only for the availability check; the displayed value is the rounded
Fahrenheit value when the target unit is F, and the rounded original Celsius
value when the target unit is C (no re-derivation from Fahrenheit); an absent
reading yields an absent display value under any unit. -/
theorem feels_like_dual_path_spec (c : ℚ) :
    (get_current_weather (some "KXYZ") (some "Example Station") none "F"
        { obsBase with heatIndex := some c }).heat_index = some (pyRound (c * 9 / 5 + 32))
    ∧ (get_current_weather (some "KXYZ") (some "Example Station") none "C"
        { obsBase with heatIndex := some c }).heat_index = some (pyRound c)
    ∧ (∀ unit : String, (get_current_weather (some "KXYZ") (some "Example Station") none unit
        obsBase).heat_index = none)
    ∧ (get_current_weather (some "KXYZ") (some "Example Station") none "F"
        { obsBase with windChill := some c }).wind_chill = some (pyRound (c * 9 / 5 + 32))
    ∧ (get_current_weather (some "KXYZ") (some "Example Station") none "C"
        { obsBase with windChill := some c }).wind_chill = some (pyRound c)
    ∧ (∀ unit : String, (get_current_weather (some "KXYZ") (some "Example Station") none unit
        obsBase).wind_chill = none) := by
  have hhi : ∀ (u : String) (o : Obs),
      (get_current_weather (some "KXYZ") (some "Example Station") none u o).heat_index
        = feels_like_display o.heatIndex u := by
    intro u o
    unfold get_current_weather
    rw [if_neg (by decide)]
  have hwc : ∀ (u : String) (o : Obs),
      (get_current_weather (some "KXYZ") (some "Example Station") none u o).wind_chill
        = feels_like_display o.windChill u := by
    intro u o
    unfold get_current_weather
    rw [if_neg (by decide)]
  refine ⟨?_, ?_, fun u => ?_, ?_, ?_, fun u => ?_⟩
  · rw [hhi]
    simp [feels_like_display, celsius_to_fahrenheit, pyRound_intCast]
  · rw [hhi]
    simp [feels_like_display, celsius_to_fahrenheit]
  · rw [hhi]
    rfl
  · rw [hwc]
    simp [feels_like_display, celsius_to_fahrenheit, pyRound_intCast]
  · rw [hwc]
    simp [feels_like_display, celsius_to_fahrenheit]
  · rw [hwc]
    rfl

/-- C9: when the station lookup yields no (truthy) station id,
`get_current_weather` returns — without raising — the record in which every
weather field and the station id are absent, while `station_full_name` carries
the fallback `station_display`, which can be non-null. -/
theorem missing_station_spec (station_id station_name state_abbrev : Option String)
    (unit : String) (obs : Obs) (h : truthyStr station_id = false) :
    get_current_weather station_id station_name state_abbrev unit obs =
      { temp := none, description := none, station := none,
        station_full_name := station_display station_name state_abbrev,
        wind_speed_mph := none, wind_label := none, current_wind_direction := none,
        humidity := none, heat_index := none, wind_chill := none,
        max_temp_24h := none, min_temp_24h := none,
        precip_1h := none, precip_1h_mm := none }
    ∧ station_display (some "Example Station") (some "CA") = some "Example Station, CA" := by
  constructor
  · unfold get_current_weather
    rw [if_pos h]
  · with_unfolding_all decide

/-- Witness for C9: a missing station with a known fallback name and state
still yields a populated `station_full_name`. -/
theorem missing_station_spec_witness :
    (get_current_weather none (some "Example Station") (some "CA") "F" obsBase).station =
        none
    ∧ (get_current_weather none (some "Example Station") (some "CA") "F"
        obsBase).station_full_name = some "Example Station, CA" := by
  rw [(missing_station_spec none (some "Example Station") (some "CA") "F" obsBase rfl).1]
  exact ⟨rfl, (missing_station_spec none (some "Example Station") (some "CA") "F" obsBase
    rfl).2⟩

/-- C1 (code-bug evidence): a raw wind speed of 0 with the known unit code
"wmoUnit:m_s-1" converts to the present value 0 mph with label "mph", yet the
record builder's truthiness test (`wind_speed_mph if wind_speed_mph else
None`, views.py:403) collapses the legitimate zero to the absent marker
`None` while the label stays "mph"; precipitation, by contrast, keeps its
zero present. -/
theorem zero_wind_collapsed_to_absent :
    convert_wind_speed (some 0) "wmoUnit:m_s-1" = (.mph 0, "mph")
    ∧ (get_current_weather (some "KXYZ") (some "Example Station") none "F"
        { obsBase with windSpeed_value := some 0,
                       windSpeed_unitCode := "wmoUnit:m_s-1" }).wind_speed_mph = none
    ∧ (get_current_weather (some "KXYZ") (some "Example Station") none "F"
        { obsBase with windSpeed_value := some 0,
                       windSpeed_unitCode := "wmoUnit:m_s-1" }).wind_label = some "mph"
    ∧ (get_current_weather (some "KXYZ") (some "Example Station") none "F"
        { obsBase with precipitationLastHour := .num 0 }).precip_1h = some 0 := by
  with_unfolding_all decide

/-- The normalized record for a present station and target unit F, varying
only the raw precipitation value. -/
def normalized_with_precip (r : RawVal) : CurrentWeather :=
  get_current_weather (some "KXYZ") (some "Example Station") none "F"
    { obsBase with precipitationLastHour := r }

/-- C2 counterexample: a raw precipitation of -1 mm yields an inches value of
0 (present) and keeps the raw -1 in the millimeter field, not the absent
marker for both fields that the claim states for negative values. -/
theorem negative_precip_cex :
    (normalized_with_precip (.num (-1))).precip_1h = some 0
    ∧ (normalized_with_precip (.num (-1))).precip_1h_mm = some (-1)
    ∧ (normalized_with_precip (.num (-1))).precip_1h ≠ none
    ∧ (normalized_with_precip (.num (-1))).precip_1h_mm ≠ none := by
  with_unfolding_all decide

/-- C2 amended: a positive millimeter value converts to inches via
`value/25.4` rounded to 2 decimal places with the raw value kept; exactly 0
yields exactly 0 inches (present, not absent); a negative value yields 0
inches (present) with the raw negative value kept; a non-numeric value yields
the absent marker for both fields (as does an absent one). -/
theorem precip_normalization_amended (q : ℚ) :
    (0 < q → (normalized_with_precip (.num q)).precip_1h = some (pyRound2 (q / 25.4))
      ∧ (normalized_with_precip (.num q)).precip_1h_mm = some q)
    ∧ ((normalized_with_precip (.num 0)).precip_1h = some 0
      ∧ (normalized_with_precip (.num 0)).precip_1h_mm = some 0)
    ∧ (q ≤ 0 → (normalized_with_precip (.num q)).precip_1h = some 0
      ∧ (normalized_with_precip (.num q)).precip_1h_mm = some q)
    ∧ ((normalized_with_precip .nonNumeric).precip_1h = none
      ∧ (normalized_with_precip .nonNumeric).precip_1h_mm = none)
    ∧ ((normalized_with_precip .null).precip_1h = none
      ∧ (normalized_with_precip .null).precip_1h_mm = none) := by
  have h1 : ∀ r, (normalized_with_precip r).precip_1h = (precip_fields r).1 := fun r => rfl
  have h2 : ∀ r, (normalized_with_precip r).precip_1h_mm = (precip_fields r).2 := fun r => rfl
  refine ⟨fun hq => ⟨?_, h2 _⟩, ⟨?_, ?_⟩, fun hq => ⟨?_, h2 _⟩, ⟨h1 _, h2 _⟩, ⟨h1 _, h2 _⟩⟩
  · rw [h1]
    simp only [precip_fields]
    rw [if_pos hq]
  · with_unfolding_all decide
  · with_unfolding_all decide
  · rw [h1]
    simp only [precip_fields]
    rw [if_neg (not_lt.mpr hq)]

/-- Witness for C2 (amended), instantiated at 25.4 mm = 1.00 inch. -/
theorem precip_normalization_amended_witness :
    (normalized_with_precip (.num 25.4)).precip_1h = some 1 := by
  rw [((precip_normalization_amended 25.4).1 (by norm_num)).1]
  with_unfolding_all decide

/-- C3 (code-bug evidence): after a Celsius request, the cached forecast
temperature is already Celsius (68 °F is stored as 20), yet a cache hit with
unit C applies `convert_temperature(·, 'F', 'C')` to it again, displaying -7
instead of 20 — the cache-hit conversion composed with the pre-cache
conversion differs from converting once, so re-application is not safe. -/
theorem cache_reconversion_shifts_temperature :
    cache_store_temperature (.num 68) "C" = .num 20
    ∧ cache_hit_temperature (cache_store_temperature (.num 68) "C") "C" = .num (-7)
    ∧ cache_hit_temperature (cache_store_temperature (.num 68) "C") "C"
        ≠ cache_store_temperature (.num 68) "C" := by
  with_unfolding_all decide

/-- C4 counterexample: with a phase function that never matches either
predicate (constant 7), both components of the search come back as the
string "N/A" — not "unavailable" as the claim states. -/
theorem moon_no_match_yields_na :
    next_moon_search (fun _ => 7) = ("N/A", "N/A")
    ∧ ("N/A" : String) ≠ "unavailable" := by
  with_unfolding_all decide

/-- C4 amended: the search scans offsets 1, …, 39 (today excluded) and, for
each of the full-moon predicate `|phase - 14| < 1` and the new-moon predicate
`phase < 1 ∨ phase > 27`, returns the first matching offset formatted as
"tomorrow" for offset 1 and "in N days" otherwise, and the fallback "N/A"
(not "unavailable") when no offset within the horizon matches. -/
theorem next_moon_search_amended (phase : Nat → ℚ) :
    (next_moon_search phase).1 =
      (match (List.range' 1 39).find? (fun j => decide (|phase j - 14| < 1.0)) with
       | some j => fmt_days j
       | none => "N/A")
    ∧ (next_moon_search phase).2 =
      (match (List.range' 1 39).find? (fun j => decide (phase j < 1.0 ∨ 27.0 < phase j)) with
       | some j => fmt_days j
       | none => "N/A")
    ∧ fmt_days 1 = "tomorrow"
    ∧ (∀ n : Nat, n ≠ 1 → fmt_days n = "in " ++ toString n ++ " days") := by
  refine ⟨?_, ?_, rfl, fun n hn => by rw [fmt_days, if_neg hn]⟩
  · have h := moonGo_fst phase 39 1 "" ""
    rw [if_pos rfl] at h
    simp only [next_moon_search]
    rw [h]
    rcases hX : (List.range' 1 39).find? (fun j => decide (|phase j - 14| < 1.0)) with _ | j
    · rfl
    · rw [if_neg (fmt_days_ne_empty j)]
  · have h := moonGo_snd phase 39 1 "" ""
    rw [if_pos rfl] at h
    simp only [next_moon_search]
    rw [h]
    rcases hX : (List.range' 1 39).find? (fun j => decide (phase j < 1.0 ∨ 27.0 < phase j)) with _ | j
    · rfl
    · rw [if_neg (fmt_days_ne_empty j)]

/-- Witness for C4 (amended), instantiated at a phase function with a full
moon at offset 1 and a new moon at offset 3, and at the offset 5 formatting
case. -/
theorem next_moon_search_amended_witness :
    next_moon_search (fun i => if i = 1 then 14 else if i = 3 then 28 else 7) =
      ("tomorrow", "in 3 days")
    ∧ fmt_days 5 = "in 5 days" := by
  have h := next_moon_search_amended (fun i => if i = 1 then 14 else if i = 3 then 28 else 7)
  refine ⟨Prod.ext_iff.mpr ⟨?_, ?_⟩, h.2.2.2 5 (by decide)⟩
  · exact h.1.trans (by with_unfolding_all decide)
  · exact h.2.1.trans (by with_unfolding_all decide)

end Tempest
